import Mathlib

/-!
# Verification of the ecouser_back HTTP API (`src/server.js`)

Shallow embedding of the Express/Mongoose server in `src/server.js`:
the three Mongoose models (Product, User, Order), the `authUser` bearer-token
middleware, and the route handlers for
`GET /api/products`, `GET /api/products/:id`, `POST /api/auth/register`,
`POST /api/auth/login` and `POST /api/orders`.

External libraries (`jsonwebtoken`, `bcryptjs`) and the Mongo driver are not
part of the repository; they are modelled from the specification's
Credential-Service and Document-Store-Adapter contracts, as noted on each
such definition.  Store fallibility (a persistence call throwing) is made
explicit through a boolean `ok` parameter on each handler: `ok = false`
means the first store operation of the request throws, landing in the
handler's `catch` block exactly as in the JavaScript.
-/

namespace EcoUser

/-- A JSON value in a numeric position of a request body, as seen by the
JavaScript coercion `Number(v)`: `undef` is an absent field
(`Number(undefined)` is `NaN`), `num q` is a JSON number, and `nonNum`
stands for any other value whose `Number` coercion yields `NaN`. -/
inductive JsVal where
  | undef : JsVal
  | num : ℚ → JsVal
  | nonNum : JsVal
deriving DecidableEq, Repr

/-- A JavaScript number: `none` is `NaN`, `some q` a (finite) number. -/
abbrev JsNum := Option ℚ

/-- The JavaScript coercion `Number(v)` on the modelled value universe. -/
def jsNumber : JsVal → JsNum
  | .num q => some q
  | .undef => none
  | .nonNum => none

/-- JavaScript `+` on numbers: `NaN` is absorbing. -/
def jsAdd : JsNum → JsNum → JsNum
  | some a, some b => some (a + b)
  | _, _ => none

/-- JavaScript `*` on numbers: `NaN` is absorbing. -/
def jsMul : JsNum → JsNum → JsNum
  | some a, some b => some (a * b)
  | _, _ => none

/-- JavaScript truthiness of an optional string field (`undefined` and the
empty string are falsy), used by the `if (!name || ...)` guards. -/
def truthy : Option String → Bool
  | none => false
  | some s => s ≠ ""

/-- The JavaScript `s.startsWith(pre)` (on the character level). -/
def jsStartsWith (s pre : String) : Bool :=
  pre.data.isPrefixOf s.data

/-- The JavaScript `s.slice(n)` for a non-negative `n` (on the character
level). -/
def jsSlice (s : String) (n : Nat) : String :=
  String.mk (s.data.drop n)

/-- Mongoose ObjectId castability: a 24-character hex string (or a
12-character string, which the driver reads as raw bytes).  `findById`
and the ObjectId schema cast throw on anything else. -/
def isValidObjectId (s : String) : Bool :=
  (s.data.length = 24 && s.data.all fun c =>
    c.isDigit || ('a' ≤ c && c ≤ 'f') || ('A' ≤ c && c ≤ 'F'))
  || s.data.length = 12

/-- A stored Product record (`productSchema`, src/server.js lines 24-29). -/
structure Product where
  id : String
  name : String
  description : String
  price : ℚ
  image : String
deriving DecidableEq, Repr

/-- A stored User record (`userSchema`, lines 31-35); `password` holds the
bcrypt digest, never the plaintext. -/
structure User where
  id : String
  name : String
  email : String
  password : String
deriving DecidableEq, Repr

/-- An item embedded in a stored Order (`orderSchema.items`, lines 39-45),
after the Mongoose casts succeeded. -/
structure StoredItem where
  productId : String
  quantity : ℚ
  price : ℚ
deriving DecidableEq, Repr

/-- A stored Order record (`orderSchema`, lines 37-48). -/
structure Order where
  id : String
  userId : String
  items : List StoredItem
  total : ℚ
  createdAt : ℤ
deriving DecidableEq, Repr

/-- The document store's contents: the three collections. -/
structure Store where
  products : List Product
  users : List User
  orders : List Order
deriving DecidableEq, Repr

/-- An order item as submitted in the request body: every field may be
absent or non-numeric; nothing has been validated yet. -/
structure ReqItem where
  productId : Option String
  price : JsVal
  quantity : JsVal
deriving DecidableEq, Repr

/-- Body of `POST /api/orders`: `items` is `none` when the `items` field is
absent or not an array (the `!Array.isArray(items)` test, line 124). -/
structure OrdersBody where
  items : Option (List ReqItem)
deriving DecidableEq, Repr

/-- Body of `POST /api/auth/register`. -/
structure RegisterBody where
  name : Option String
  email : Option String
  password : Option String
deriving DecidableEq, Repr

/-- Body of `POST /api/auth/login`. -/
structure LoginBody where
  email : Option String
  password : Option String
deriving DecidableEq, Repr

/-- Modelled from the spec: the payload of a signed token produced by the
Credential Service (`jsonwebtoken` is not part of the repository) — a
"signed, self-contained token embedding the identity's unique id and an
expiration 7 days from issuance".  `sig` records the secret the token was
signed with; verification compares it with the verifier's secret. -/
structure Token where
  id : String
  exp : ℤ
  sig : String
deriving DecidableEq, Repr

/-- Modelled from the spec: failure modes of `verifyToken` — "fails with
Unauthorized if the signature is invalid, the token is malformed, or it
has expired". -/
inductive TokenErr where
  | malformed : TokenErr
  | badSignature : TokenErr
  | expired : TokenErr
deriving DecidableEq, Repr

/-- Seven days in seconds, the `expiresIn: '7d'` of line 98. -/
def sevenDays : ℤ := 7 * 24 * 60 * 60

/-- Modelled from the spec: `issueToken(identity)` of the Credential
Service (`jwt.sign({ id }, JWT_SECRET, { expiresIn: '7d' })`, line 98):
embeds the id and an expiration 7 days from issuance, signed with the
process-wide secret. -/
def issueToken (secret id : String) (now : ℤ) : Token :=
  ⟨id, now + sevenDays, secret⟩

/-- Modelled from the spec: `verifyToken` on a decoded payload — checks the
signature, then the expiration (a token is rejected from its expiration
instant on, as `jsonwebtoken` does). -/
def verifyPayload (secret : String) (now : ℤ) (tok : Token) : Except TokenErr String :=
  if tok.sig ≠ secret then .error .badSignature
  else if tok.exp ≤ now then .error .expired
  else .ok tok.id

/-- Modelled from the spec: serialization of the self-contained token into
the compact string carried in the `Authorization` header. -/
def encodeToken (tok : Token) : String :=
  tok.id ++ "." ++ toString tok.exp ++ "." ++ tok.sig

/-- Split a character list on the dot separator (the compact token
format's field separator). -/
def splitDots : List Char → List (List Char)
  | [] => [[]]
  | c :: cs =>
    if c = '.' then [] :: splitDots cs
    else
      match splitDots cs with
      | [] => [[c]]
      | h :: t => (c :: h) :: t

/-- Value of a decimal digit character, `none` on a non-digit. -/
def digitVal (c : Char) : Option Nat :=
  if c.isDigit then some (c.toNat - 48) else none

/-- Accumulate a decimal numeral; `none` as soon as a non-digit shows up. -/
def natOfChars : List Char → Nat → Option Nat
  | [], acc => some acc
  | c :: cs, acc =>
    match digitVal c with
    | none => none
    | some d => natOfChars cs (acc * 10 + d)

/-- Parse a non-empty decimal numeral. -/
def parseNat (l : List Char) : Option Nat :=
  match l with
  | [] => none
  | _ => natOfChars l 0

/-- Parse a (possibly negated) decimal integer. -/
def parseInt (l : List Char) : Option ℤ :=
  match l with
  | '-' :: rest => (parseNat rest).map fun n => -(n : ℤ)
  | _ => (parseNat l).map fun n => (n : ℤ)

/-- Modelled from the spec: parsing of a compact token string back into its
payload; anything that does not have the three-part shape is malformed. -/
def decodeToken (s : String) : Option Token :=
  match splitDots s.data with
  | [i, e, g] => (parseInt e).map fun z => ⟨String.mk i, z, String.mk g⟩
  | _ => none

/-- Modelled from the spec: `verifyToken(token)` on the wire format
(`jwt.verify(token, JWT_SECRET)`, line 60). -/
def verifyToken (secret : String) (now : ℤ) (s : String) : Except TokenErr String :=
  match decodeToken s with
  | none => .error .malformed
  | some tok => verifyPayload secret now tok

/-- Modelled from the spec: the Credential Service's password primitives
(`bcryptjs` is not part of the repository): `hash` is the one-way digest,
`compare` the boolean verification of a plaintext against a digest. -/
structure Bcrypt where
  hash : String → String
  compare : String → String → Bool

/-- A concrete password-hashing instance used for evaluation: digest is a
tagged copy of the plaintext, `compare` checks the tag.  (Stands in for a
real bcrypt only to make the handlers runnable; theorems quantify over
an arbitrary `Bcrypt` wherever the claim allows.) -/
def devBcrypt : Bcrypt :=
  ⟨fun p => "$2a$10$" ++ p, fun p d => d = "$2a$10$" ++ p⟩

/-- A JSON response body, as produced by the handlers' `res.json(...)` /
`res.send(...)` calls. -/
inductive Body where
  | msg : String → Body
  | text : String → Body
  | productList : List Product → Body
  | product : Product → Body
  | order : Order → Body
  | auth : String → String → String → String → Body
deriving DecidableEq, Repr

/-- An HTTP response: status code and JSON body. -/
structure Resp where
  status : Nat
  body : Body
deriving DecidableEq, Repr

/-- Outcome of the `authUser` middleware: either it answered the request
itself (`reject`) or it attached the decoded id and called `next()`. -/
inductive AuthResult where
  | reject : Resp → AuthResult
  | proceed : String → AuthResult
deriving DecidableEq, Repr

/-- The `authUser` middleware (src/server.js lines 55-66): read the
`Authorization` header (absent reads as `''`), strip a `Bearer ` prefix
(a missing or empty remainder is falsy, hence "No token provided"),
then verify; on verification failure answer "Invalid token", otherwise
expose the decoded id. -/
def authUser (secret : String) (now : ℤ) (hdr : Option String) : AuthResult :=
  let auth := hdr.getD ""
  let token : Option String :=
    if jsStartsWith auth "Bearer " then some (jsSlice auth 7) else none
  match token with
  | none => .reject ⟨401, .msg "No token provided"⟩
  | some t =>
    if t = "" then .reject ⟨401, .msg "No token provided"⟩
    else
      match verifyToken secret now t with
      | .ok id => .proceed id
      | .error _ => .reject ⟨401, .msg "Invalid token"⟩

/-- Generated identifier for a newly created document. -/
def freshId (n : Nat) : String := "id" ++ toString n

/-- `GET /api/products` (lines 70-77): list all products, 500 when the
store call throws. -/
def getProducts (ok : Bool) (st : Store) : Resp :=
  if ok then ⟨200, .productList st.products⟩
  else ⟨500, .msg "Server error"⟩

/-- `GET /api/products/:id` (lines 79-87): `findById` throws on a
malformed id (CastError) and on store failure; both land in the same
`catch`, which answers 400 "Invalid ID".  A successful lookup finding
nothing answers 404. -/
def getProductById (ok : Bool) (id : String) (st : Store) : Resp :=
  if ¬ isValidObjectId id then ⟨400, .msg "Invalid ID"⟩
  else if ¬ ok then ⟨400, .msg "Invalid ID"⟩
  else
    match st.products.find? fun p => p.id = id with
    | none => ⟨404, .msg "Product not found"⟩
    | some p => ⟨200, .product p⟩

/-- `POST /api/auth/register` (lines 90-103): falsy-field guard, duplicate
email guard via `findOne`, then hash, create and sign.  A throwing store
call lands in the `catch` and answers 500. -/
def registerHandler (bc : Bcrypt) (ok : Bool) (secret : String) (now : ℤ)
    (body : RegisterBody) (st : Store) : Resp × Store :=
  if ¬ (truthy body.name && truthy body.email && truthy body.password) then
    (⟨400, .msg "Missing fields"⟩, st)
  else if ¬ ok then (⟨500, .msg "Server error"⟩, st)
  else
    match st.users.find? fun u => u.email = body.email.getD "" with
    | some _ => (⟨409, .msg "Email already registered"⟩, st)
    | none =>
      let uid := freshId st.users.length
      let user : User :=
        ⟨uid, body.name.getD "", body.email.getD "", bc.hash (body.password.getD "")⟩
      let tok := encodeToken (issueToken secret uid now)
      (⟨200, .auth tok uid user.name user.email⟩,
        { st with users := st.users ++ [user] })

/-- `POST /api/auth/login` (lines 105-118): falsy-field guard, `findOne`
by email, `bcrypt.compare` against the stored digest; both the
unknown-email and the wrong-password branches answer the literal
401 `{message: 'Invalid credentials'}`. -/
def loginHandler (bc : Bcrypt) (ok : Bool) (secret : String) (now : ℤ)
    (body : LoginBody) (st : Store) : Resp × Store :=
  if ¬ (truthy body.email && truthy body.password) then
    (⟨400, .msg "Missing fields"⟩, st)
  else if ¬ ok then (⟨500, .msg "Server error"⟩, st)
  else
    match st.users.find? fun u => u.email = body.email.getD "" with
    | none => (⟨401, .msg "Invalid credentials"⟩, st)
    | some u =>
      if ¬ bc.compare (body.password.getD "") u.password then
        (⟨401, .msg "Invalid credentials"⟩, st)
      else
        let tok := encodeToken (issueToken secret u.id now)
        (⟨200, .auth tok u.id u.name u.email⟩, st)

/-- One step of the `reduce` of line 128:
`(sum, it) => sum + (Number(it.price) * Number(it.quantity))`. -/
def totalStep (sum : JsNum) (it : ReqItem) : JsNum :=
  jsAdd sum (jsMul (jsNumber it.price) (jsNumber it.quantity))

/-- The order total of line 128:
`items.reduce((sum, it) => sum + (Number(it.price) * Number(it.quantity)), 0)`
over JavaScript numbers, so any non-numeric field turns the total into
`NaN`. -/
def jsTotal (l : List ReqItem) : JsNum :=
  l.foldl totalStep (some 0)

/-- The Mongoose cast of one submitted order item against
`orderSchema.items` (lines 39-45): `productId` must be a castable
ObjectId, `quantity` and `price` must cast to (non-`NaN`) numbers;
`none` is a `ValidationError`/`CastError`. -/
def castItem (it : ReqItem) : Option StoredItem :=
  match it.productId, it.price, it.quantity with
  | some pid, .num p, .num q =>
    if isValidObjectId pid then some ⟨pid, q, p⟩ else none
  | _, _, _ => none

/-- The Mongoose cast of the whole submitted `items` array: every item
must cast, any failure fails the document. -/
def castItems : List ReqItem → Option (List StoredItem)
  | [] => some []
  | it :: rest =>
    match castItem it, castItems rest with
    | some s, some sl => some (s :: sl)
    | _, _ => none

/-- Failure of `Order.create`: schema validation versus a throwing store. -/
inductive CreateErr where
  | validation : CreateErr
  | storeFailure : CreateErr
deriving DecidableEq, Repr

/-- `Order.create({ userId, items, total })` (line 129) against
`orderSchema`: Mongoose validates the document (ObjectId casts, required
non-`NaN` numbers) before the store write; a failing write throws. -/
def orderCreate (ok : Bool) (now : ℤ) (userId : String) (items : List ReqItem)
    (total : JsNum) (st : Store) : Except CreateErr (Order × Store) :=
  match castItems items, total with
  | some sitems, some t =>
    if ¬ isValidObjectId userId then .error .validation
    else if ¬ ok then .error .storeFailure
    else
      let o : Order := ⟨freshId st.orders.length, userId, sitems, t, now⟩
      .ok (o, { st with orders := st.orders ++ [o] })
  | _, _ => .error .validation

/-- The authenticated part of `POST /api/orders` (lines 122-133): reject a
missing/non-array/empty `items` with 400, compute the total by numeric
coercion, attempt `Order.create`; any throw lands in the `catch` and
answers 500. -/
def ordersHandler (ok : Bool) (now : ℤ) (uid : String) (body : OrdersBody)
    (st : Store) : Resp × Store :=
  match body.items with
  | none => (⟨400, .msg "Items required"⟩, st)
  | some l =>
    if l.isEmpty then (⟨400, .msg "Items required"⟩, st)
    else
      match orderCreate ok now uid l (jsTotal l) st with
      | .error _ => (⟨500, .msg "Server error"⟩, st)
      | .ok (o, st1) => (⟨201, .order o⟩, st1)

/-- The full `POST /api/orders` route (line 121): `authUser` runs first; a
rejection short-circuits the handler and touches nothing. -/
def postOrdersRoute (ok : Bool) (secret : String) (now : ℤ) (hdr : Option String)
    (body : OrdersBody) (st : Store) : Resp × Store :=
  match authUser secret now hdr with
  | .reject r => (r, st)
  | .proceed uid => ordersHandler ok now uid body st

/-- `GET /` (lines 136-138). -/
def rootRoute : Resp := ⟨200, .text "USER API running"⟩

/-! ## Specification-side helpers -/

/-- Is this value an actual JSON number? -/
def isNum : JsVal → Bool
  | .num _ => true
  | _ => false

/-- The rational carried by a numeric value (junk elsewhere). -/
def ratOf : JsVal → ℚ
  | .num q => q
  | _ => 0

/-- The specification's order total: the sum over the submitted items of
`price × quantity`. -/
def itemsTotal (l : List ReqItem) : ℚ :=
  (l.map fun it => ratOf it.price * ratOf it.quantity).sum

/-- The contract's reading of a header "of the form Bearer token": the
`Bearer ` marker followed by a non-empty token. -/
def bearerForm (a : String) : Option String :=
  if jsStartsWith a "Bearer " && jsSlice a 7 ≠ "" then some (jsSlice a 7) else none

/-- The Identity-Middleware contract exactly as the specification words it
(§4.3): absent or shapeless header → 401 "No token provided";
verification failure → 401 "Invalid token"; success → expose the decoded
id to the handler. -/
def authUserSpec (secret : String) (now : ℤ) (hdr : Option String) : AuthResult :=
  match hdr with
  | none => .reject ⟨401, .msg "No token provided"⟩
  | some a =>
    match bearerForm a with
    | none => .reject ⟨401, .msg "No token provided"⟩
    | some t =>
      match verifyToken secret now t with
      | .error _ => .reject ⟨401, .msg "Invalid token"⟩
      | .ok i => .proceed i

/-! ## Arithmetic of the order total -/

theorem jsAdd_none_left (a : JsNum) : jsAdd none a = none := by
  cases a <;> rfl

theorem jsAdd_none_right (a : JsNum) : jsAdd a none = none := by
  cases a <;> rfl

theorem jsMul_none_left (a : JsNum) : jsMul none a = none := by
  cases a <;> rfl

theorem jsMul_none_right (a : JsNum) : jsMul a none = none := by
  cases a <;> rfl

theorem foldl_totalStep_none (l : List ReqItem) :
    l.foldl totalStep none = none := by
  induction l with
  | nil => rfl
  | cons hd tl ih =>
    have h : totalStep none hd = none := jsAdd_none_left _
    simp [List.foldl_cons, h, ih]

/-- A single `NaN` factor anywhere in the list poisons the whole reduce. -/
theorem foldl_totalStep_nan (l : List ReqItem) (acc : JsNum) (it : ReqItem)
    (hmem : it ∈ l)
    (hnan : jsNumber it.price = none ∨ jsNumber it.quantity = none) :
    l.foldl totalStep acc = none := by
  induction l generalizing acc with
  | nil => cases hmem
  | cons hd tl ih =>
    rcases List.mem_cons.1 hmem with heq | htl
    · subst heq
      have hstep : totalStep acc it = none := by
        rcases hnan with h | h
        · rw [totalStep, h, jsMul_none_left, jsAdd_none_right]
        · rw [totalStep, h, jsMul_none_right, jsAdd_none_right]
      rw [List.foldl_cons, hstep, foldl_totalStep_none]
    · rw [List.foldl_cons]
      exact ih (totalStep acc hd) htl

theorem jsNumber_of_isNum (v : JsVal) (h : isNum v = true) :
    jsNumber v = some (ratOf v) := by
  cases v with
  | num q => rfl
  | undef => exact absurd h (by simp [isNum])
  | nonNum => exact absurd h (by simp [isNum])

/-- On an all-numeric list the JavaScript reduce computes the exact
rational sum of `price × quantity`. -/
theorem foldl_totalStep_sum (l : List ReqItem) (acc : ℚ)
    (h : ∀ it ∈ l, isNum it.price = true ∧ isNum it.quantity = true) :
    l.foldl totalStep (some acc) = some (acc + itemsTotal l) := by
  induction l generalizing acc with
  | nil => simp [itemsTotal]
  | cons hd tl ih =>
    obtain ⟨hp, hq⟩ := h hd (List.mem_cons_self hd tl)
    have hstep : totalStep (some acc) hd = some (acc + ratOf hd.price * ratOf hd.quantity) := by
      rw [totalStep, jsNumber_of_isNum _ hp, jsNumber_of_isNum _ hq]; rfl
    rw [List.foldl_cons, hstep, ih _ fun it hit => h it (List.mem_cons_of_mem _ hit)]
    have : itemsTotal (hd :: tl) = ratOf hd.price * ratOf hd.quantity + itemsTotal tl := by
      simp [itemsTotal]
    rw [this, add_assoc]

theorem jsTotal_sum (l : List ReqItem)
    (h : ∀ it ∈ l, isNum it.price = true ∧ isNum it.quantity = true) :
    jsTotal l = some (itemsTotal l) := by
  rw [jsTotal, foldl_totalStep_sum l 0 h, zero_add]

/-! ## Casting of submitted items -/

theorem castItem_isSome_num (it : ReqItem) (h : (castItem it).isSome = true) :
    isNum it.price = true ∧ isNum it.quantity = true := by
  rcases it with ⟨pid, price, qty⟩
  cases pid <;> cases price <;> cases qty <;> simp_all [castItem, isNum]

theorem castItems_all_some (l : List ReqItem)
    (h : ∀ it ∈ l, (castItem it).isSome = true) :
    ∃ sl, castItems l = some sl := by
  induction l with
  | nil => exact ⟨[], rfl⟩
  | cons hd tl ih =>
    obtain ⟨s, hs⟩ := Option.isSome_iff_exists.1 (h hd (List.mem_cons_self hd tl))
    obtain ⟨sl, hsl⟩ := ih fun it hit => h it (List.mem_cons_of_mem _ hit)
    exact ⟨s :: sl, by rw [castItems, hs, hsl]⟩

theorem castItems_none_of_mem (l : List ReqItem) (it : ReqItem)
    (hmem : it ∈ l) (h : castItem it = none) : castItems l = none := by
  induction l with
  | nil => cases hmem
  | cons hd tl ih =>
    rcases List.mem_cons.1 hmem with heq | htl
    · subst heq
      rw [castItems, h]
    · rw [castItems, ih htl]
      cases castItem hd <;> rfl

/-! ## Claim theorems -/

/-- C2: verifying a token issued for an id returns that id at any time
strictly before the 7-day expiry, and an Unauthorized (expired) failure
at any time after it. -/
theorem token_verify_issue_roundtrip (secret id : String) (t tv : ℤ) :
    (tv < t + sevenDays → verifyPayload secret tv (issueToken secret id t) = .ok id) ∧
    (t + sevenDays < tv → verifyPayload secret tv (issueToken secret id t) = .error .expired) := by
  constructor
  · intro h
    have hlt : ¬ (t + sevenDays ≤ tv) := by omega
    simp [issueToken, verifyPayload, hlt]
  · intro h
    have hle : t + sevenDays ≤ tv := le_of_lt h
    simp [issueToken, verifyPayload, hle]

theorem token_verify_issue_roundtrip_witness :
    verifyPayload "s" 1 (issueToken "s" "u" 0) = .ok "u" ∧
    verifyPayload "s" 604801 (issueToken "s" "u" 0) = .error .expired :=
  ⟨(token_verify_issue_roundtrip "s" "u" 0 1).1 (by decide),
   (token_verify_issue_roundtrip "s" "u" 0 604801).2 (by decide)⟩

/-- C3: when the email matches no stored user, and when the password does
not verify against the matched user's digest, the login response is the
same literal 401 body in both cases — the two causes are observationally
indistinguishable. -/
theorem login_failures_indistinguishable (bc : Bcrypt) (secret : String) (now : ℤ)
    (body : LoginBody) (st : Store) (e p : String)
    (he : body.email = some e) (hene : e ≠ "")
    (hp : body.password = some p) (hpne : p ≠ "")
    (h : (st.users.find? fun u => u.email = e) = none ∨
      ∃ u, (st.users.find? fun u => u.email = e) = some u ∧ bc.compare p u.password = false) :
    loginHandler bc true secret now body st = (⟨401, .msg "Invalid credentials"⟩, st) := by
  rcases h with h | ⟨u, hu, hcmp⟩
  · simp [loginHandler, he, hp, truthy, hene, hpne, h]
  · simp [loginHandler, he, hp, truthy, hene, hpne, hu, hcmp]

theorem login_failures_indistinguishable_witness :
    loginHandler devBcrypt true "s" 0 ⟨some "a@b", some "x"⟩
        ⟨[], [⟨"id0", "n", "c@d", "$2a$10$pw"⟩], []⟩
      = (⟨401, .msg "Invalid credentials"⟩, ⟨[], [⟨"id0", "n", "c@d", "$2a$10$pw"⟩], []⟩) ∧
    loginHandler devBcrypt true "s" 0 ⟨some "c@d", some "x"⟩
        ⟨[], [⟨"id0", "n", "c@d", "$2a$10$pw"⟩], []⟩
      = (⟨401, .msg "Invalid credentials"⟩, ⟨[], [⟨"id0", "n", "c@d", "$2a$10$pw"⟩], []⟩) :=
  ⟨login_failures_indistinguishable devBcrypt "s" 0 _ _ "a@b" "x" rfl (by decide) rfl (by decide)
      (Or.inl (by decide)),
   login_failures_indistinguishable devBcrypt "s" 0 _ _ "c@d" "x" rfl (by decide) rfl (by decide)
      (Or.inr ⟨⟨"id0", "n", "c@d", "$2a$10$pw"⟩, by decide, by decide⟩)⟩

/-- C5: registering with an email that some stored user already carries
answers 409 Conflict and leaves the stored users untouched, so email
uniqueness is preserved by registration. -/
theorem register_duplicate_email_conflict (bc : Bcrypt) (secret : String) (now : ℤ)
    (body : RegisterBody) (st : Store) (u : User)
    (hu : u ∈ st.users) (he : body.email = some u.email)
    (hn : truthy body.name = true) (hp : truthy body.password = true)
    (hene : u.email ≠ "") :
    registerHandler bc true secret now body st = (⟨409, .msg "Email already registered"⟩, st) := by
  have hsome : (st.users.find? fun v => v.email = body.email.getD "").isSome := by
    rw [List.find?_isSome]
    exact ⟨u, hu, by rw [he]; simp⟩
  obtain ⟨w, hw⟩ := Option.isSome_iff_exists.1 hsome
  have hemail : truthy body.email = true := by
    rw [he]
    simp [truthy, hene]
  simp [registerHandler, hn, hp, hemail, hw]

theorem register_duplicate_email_conflict_witness :
    registerHandler devBcrypt true "s" 0 ⟨some "n", some "c@d", some "p"⟩
        ⟨[], [⟨"id0", "m", "c@d", "h"⟩], []⟩
      = (⟨409, .msg "Email already registered"⟩, ⟨[], [⟨"id0", "m", "c@d", "h"⟩], []⟩) :=
  register_duplicate_email_conflict devBcrypt "s" 0 _ _ ⟨"id0", "m", "c@d", "h"⟩
    (by decide) rfl (by decide) (by decide) (by decide)

/-- C6: a `POST /api/orders` request without an `Authorization` header, or
with one not of Bearer form, answers 401 and leaves the whole store — in
particular the orders — unchanged. -/
theorem orders_unauth_creates_nothing (ok : Bool) (secret : String) (now : ℤ)
    (hdr : Option String) (body : OrdersBody) (st : Store)
    (h : hdr = none ∨ jsStartsWith (hdr.getD "") "Bearer " = false) :
    postOrdersRoute ok secret now hdr body st = (⟨401, .msg "No token provided"⟩, st) := by
  have hs : jsStartsWith (hdr.getD "") "Bearer " = false := by
    rcases h with h | h
    · subst h; decide
    · exact h
  simp [postOrdersRoute, authUser, hs]

theorem orders_unauth_creates_nothing_witness :
    postOrdersRoute true "s" 0 none ⟨some []⟩ ⟨[], [], []⟩
      = (⟨401, .msg "No token provided"⟩, ⟨[], [], []⟩) :=
  orders_unauth_creates_nothing true "s" 0 none ⟨some []⟩ ⟨[], [], []⟩ (Or.inl rfl)

/-- C7: `GET /api/products/:id` answers 400 on a malformed identifier and
404 on a well-formed identifier matching no stored product — two
distinct outcomes. -/
theorem productById_malformed_vs_unknown (id : String) (st : Store) :
    (isValidObjectId id = false → getProductById true id st = ⟨400, .msg "Invalid ID"⟩) ∧
    (isValidObjectId id = true → (st.products.find? fun p => p.id = id) = none →
      getProductById true id st = ⟨404, .msg "Product not found"⟩) := by
  constructor
  · intro h
    simp [getProductById, h]
  · intro h hf
    simp [getProductById, h, hf]

theorem productById_malformed_vs_unknown_witness :
    getProductById true "abc" ⟨[], [], []⟩ = ⟨400, .msg "Invalid ID"⟩ ∧
    getProductById true "aaaaaaaaaaaaaaaaaaaaaaaa" ⟨[], [], []⟩
      = ⟨404, .msg "Product not found"⟩ :=
  ⟨(productById_malformed_vs_unknown "abc" ⟨[], [], []⟩).1 (by decide),
   (productById_malformed_vs_unknown "aaaaaaaaaaaaaaaaaaaaaaaa" ⟨[], [], []⟩).2 (by decide) rfl⟩

/-- An empty store, for concrete evaluations. -/
def emptyStore : Store := ⟨[], [], []⟩

theorem isEmpty_false_of_ne_nil {l : List ReqItem} (h : l ≠ []) :
    l.isEmpty = false := by
  cases l with
  | nil => exact absurd rfl h
  | cons a t => rfl

/-- C1: on an authenticated order request whose non-empty items all pass
the schema casts, the created order is stored and returned with status
201, its `total` is exactly the sum over the submitted items of
`price × quantity` (client-supplied prices verbatim), and the stored
Product catalog has no influence on the outcome. -/
theorem orders_total_is_item_sum (secret : String) (now : ℤ) (hdr : Option String)
    (body : OrdersBody) (st : Store) (uid : String) (l : List ReqItem)
    (hauth : authUser secret now hdr = .proceed uid)
    (hitems : body.items = some l) (hne : l ≠ [])
    (huid : isValidObjectId uid = true)
    (hvalid : ∀ it ∈ l, (castItem it).isSome = true) :
    ∃ o : Order,
      postOrdersRoute true secret now hdr body st
        = (⟨201, .order o⟩, { st with orders := st.orders ++ [o] }) ∧
      o.total = itemsTotal l ∧ o.userId = uid ∧
      ∀ ps, (postOrdersRoute true secret now hdr body { st with products := ps }).1
        = ⟨201, .order o⟩ := by
  obtain ⟨sl, hsl⟩ := castItems_all_some l hvalid
  have htot : jsTotal l = some (itemsTotal l) :=
    jsTotal_sum l fun it hit => castItem_isSome_num it (hvalid it hit)
  have hempty : l.isEmpty = false := isEmpty_false_of_ne_nil hne
  refine ⟨⟨freshId st.orders.length, uid, sl, itemsTotal l, now⟩, ?_, rfl, rfl, ?_⟩
  · simp [postOrdersRoute, hauth, ordersHandler, hitems, hempty, orderCreate, hsl, htot, huid]
  · intro ps
    simp [postOrdersRoute, hauth, ordersHandler, hitems, hempty, orderCreate, hsl, htot, huid]

theorem orders_total_is_item_sum_witness :
    ∃ o : Order,
      postOrdersRoute true "s" 0 (some "Bearer aaaaaaaaaaaaaaaaaaaaaaaa.604800.s")
          ⟨some [⟨some "bbbbbbbbbbbbbbbbbbbbbbbb", .num 10, .num 2⟩,
                 ⟨some "bbbbbbbbbbbbbbbbbbbbbbbb", .num 5, .num 1⟩]⟩ emptyStore
        = (⟨201, .order o⟩, { emptyStore with orders := emptyStore.orders ++ [o] }) ∧
      o.total = itemsTotal [⟨some "bbbbbbbbbbbbbbbbbbbbbbbb", .num 10, .num 2⟩,
                            ⟨some "bbbbbbbbbbbbbbbbbbbbbbbb", .num 5, .num 1⟩] ∧
      o.userId = "aaaaaaaaaaaaaaaaaaaaaaaa" ∧
      ∀ ps, (postOrdersRoute true "s" 0 (some "Bearer aaaaaaaaaaaaaaaaaaaaaaaa.604800.s")
          ⟨some [⟨some "bbbbbbbbbbbbbbbbbbbbbbbb", .num 10, .num 2⟩,
                 ⟨some "bbbbbbbbbbbbbbbbbbbbbbbb", .num 5, .num 1⟩]⟩
          { emptyStore with products := ps }).1 = ⟨201, .order o⟩ :=
  orders_total_is_item_sum "s" 0 (some "Bearer aaaaaaaaaaaaaaaaaaaaaaaa.604800.s")
    ⟨some [⟨some "bbbbbbbbbbbbbbbbbbbbbbbb", .num 10, .num 2⟩,
           ⟨some "bbbbbbbbbbbbbbbbbbbbbbbb", .num 5, .num 1⟩]⟩ emptyStore
    "aaaaaaaaaaaaaaaaaaaaaaaa" _ (by decide) rfl (by decide) (by decide) (by decide)

/-- C4: the `authUser` middleware realises the identity-middleware
contract word for word — absent or shapeless header → 401 "No token
provided", failed verification → 401 "Invalid token", success → the
decoded id is exposed — and whenever it rejects, the protected orders
route answers with exactly that rejection and leaves the store
untouched. -/
theorem authUser_matches_contract (secret : String) (now : ℤ) (hdr : Option String) :
    authUser secret now hdr = authUserSpec secret now hdr ∧
    ∀ ok body st r, authUser secret now hdr = .reject r →
      postOrdersRoute ok secret now hdr body st = (r, st) := by
  constructor
  · cases hdr with
    | none =>
      have h : jsStartsWith "" "Bearer " = false := by decide
      simp [authUser, authUserSpec, Option.getD, h]
    | some a =>
      cases hS : jsStartsWith a "Bearer " with
      | false => simp [authUser, authUserSpec, bearerForm, hS]
      | true =>
        by_cases hE : jsSlice a 7 = ""
        · simp [authUser, authUserSpec, bearerForm, hS, hE]
        · cases hv : verifyToken secret now (jsSlice a 7) with
          | ok i => simp [authUser, authUserSpec, bearerForm, hS, hE, hv]
          | error e => simp [authUser, authUserSpec, bearerForm, hS, hE, hv]
  · intro ok body st r h
    simp [postOrdersRoute, h]

theorem authUser_matches_contract_witness :
    authUser "s" 0 (some "Bearer bogus") = authUserSpec "s" 0 (some "Bearer bogus") ∧
    postOrdersRoute true "s" 0 (some "Bearer bogus") ⟨none⟩ emptyStore
      = (⟨401, .msg "Invalid token"⟩, emptyStore) :=
  ⟨(authUser_matches_contract "s" 0 (some "Bearer bogus")).1,
   (authUser_matches_contract "s" 0 (some "Bearer bogus")).2 true ⟨none⟩ emptyStore
     ⟨401, .msg "Invalid token"⟩ (by decide)⟩

/-- C8 counterexample: an order item missing its required `productId`
makes `Order.create` fail validation, and the client sees 500, not the
invalid-input status 400 the claim announces. -/
theorem orders_missing_field_not_400 :
    ordersHandler true 0 "aaaaaaaaaaaaaaaaaaaaaaaa"
        ⟨some [⟨none, .num 10, .num 2⟩]⟩ emptyStore
      = (⟨500, .msg "Server error"⟩, emptyStore) ∧
    (ordersHandler true 0 "aaaaaaaaaaaaaaaaaaaaaaaa"
        ⟨some [⟨none, .num 10, .num 2⟩]⟩ emptyStore).1.status ≠ 400 := by
  decide

/-- C8 amended: a create call failing because a required item field is
absent or mistyped is surfaced to the client as 500 "Server error" (the
internal-failure status), never as 400. -/
theorem orders_invalid_item_yields_500 (ok : Bool) (now : ℤ) (uid : String)
    (body : OrdersBody) (st : Store) (l : List ReqItem) (it : ReqItem)
    (hitems : body.items = some l) (hne : l ≠ [])
    (hmem : it ∈ l) (hbad : castItem it = none) :
    ordersHandler ok now uid body st = (⟨500, .msg "Server error"⟩, st) := by
  have hcast := castItems_none_of_mem l it hmem hbad
  have hempty : l.isEmpty = false := isEmpty_false_of_ne_nil hne
  cases htot : jsTotal l <;>
    simp [ordersHandler, hitems, hempty, orderCreate, hcast, htot]

theorem orders_invalid_item_yields_500_witness :
    ordersHandler false 5 "u" ⟨some [⟨some "bbbbbbbbbbbbbbbbbbbbbbbb", .nonNum, .num 1⟩]⟩ emptyStore
      = (⟨500, .msg "Server error"⟩, emptyStore) :=
  orders_invalid_item_yields_500 false 5 "u" _ _ _
    ⟨some "bbbbbbbbbbbbbbbbbbbbbbbb", .nonNum, .num 1⟩ rfl (by decide) (by decide) (by decide)

/-- C9 counterexample: a store failure during `GET /api/products/:id` is
answered with 400 "Invalid ID" — not with the 500 the claim states —
because that handler's catch block maps every error to 400. -/
theorem productById_store_failure_not_500 :
    getProductById false "aaaaaaaaaaaaaaaaaaaaaaaa" emptyStore = ⟨400, .msg "Invalid ID"⟩ ∧
    (getProductById false "aaaaaaaaaaaaaaaaaaaaaaaa" emptyStore).status ≠ 500 := by
  decide

/-- C9 amended: every handler catches failures locally; the list, register,
login and orders handlers map a throwing store to 500 "Server error",
while the products/:id handler maps any caught error — store failure
included — to 400 "Invalid ID". -/
theorem handlers_map_store_failures (bc : Bcrypt) (secret : String) (now : ℤ)
    (st : Store) (id uid : String) (rb : RegisterBody) (lb : LoginBody) (ob : OrdersBody) :
    getProducts false st = ⟨500, .msg "Server error"⟩ ∧
    getProductById false id st = ⟨400, .msg "Invalid ID"⟩ ∧
    (truthy rb.name = true → truthy rb.email = true → truthy rb.password = true →
      registerHandler bc false secret now rb st = (⟨500, .msg "Server error"⟩, st)) ∧
    (truthy lb.email = true → truthy lb.password = true →
      loginHandler bc false secret now lb st = (⟨500, .msg "Server error"⟩, st)) ∧
    ∀ l, ob.items = some l → l ≠ [] →
      ordersHandler false now uid ob st = (⟨500, .msg "Server error"⟩, st) := by
  refine ⟨rfl, ?_, ?_, ?_, ?_⟩
  · by_cases h : isValidObjectId id = true
    · simp [getProductById, h]
    · simp [getProductById, h]
  · intro h1 h2 h3
    simp [registerHandler, h1, h2, h3]
  · intro h1 h2
    simp [loginHandler, h1, h2]
  · intro l hl hne
    have hempty : l.isEmpty = false := isEmpty_false_of_ne_nil hne
    by_cases huid : isValidObjectId uid = true <;>
      cases hc : castItems l <;> cases htot : jsTotal l <;>
        simp [ordersHandler, hl, hempty, orderCreate, hc, htot, huid]

theorem handlers_map_store_failures_witness :
    getProducts false emptyStore = ⟨500, .msg "Server error"⟩ ∧
    getProductById false "zzz" emptyStore = ⟨400, .msg "Invalid ID"⟩ ∧
    registerHandler devBcrypt false "s" 0 ⟨some "n", some "e@f", some "p"⟩ emptyStore
      = (⟨500, .msg "Server error"⟩, emptyStore) ∧
    loginHandler devBcrypt false "s" 0 ⟨some "e@f", some "p"⟩ emptyStore
      = (⟨500, .msg "Server error"⟩, emptyStore) ∧
    ordersHandler false 0 "u" ⟨some [⟨none, .undef, .undef⟩]⟩ emptyStore
      = (⟨500, .msg "Server error"⟩, emptyStore) :=
  have h := handlers_map_store_failures devBcrypt "s" 0 emptyStore "zzz" "u"
    ⟨some "n", some "e@f", some "p"⟩ ⟨some "e@f", some "p"⟩ ⟨some [⟨none, .undef, .undef⟩]⟩
  ⟨h.1, h.2.1, h.2.2.1 (by decide) (by decide) (by decide),
   h.2.2.2.1 (by decide) (by decide), h.2.2.2.2 _ rfl (by decide)⟩

/-- C10: the orders handler checks only that `items` is a non-empty array
— with any non-empty items list it never answers 400 but goes on to
attempt creation (ending in 201 or 500) — and a missing or non-numeric
`price` or `quantity` anywhere in the list makes the computed total
`NaN`. -/
theorem orders_items_unexamined (ok : Bool) (now : ℤ) (uid : String)
    (st : Store) (l : List ReqItem) (hne : l ≠ []) :
    ((ordersHandler ok now uid ⟨some l⟩ st).1.status = 201 ∨
     (ordersHandler ok now uid ⟨some l⟩ st).1.status = 500) ∧
    ∀ it ∈ l, (jsNumber it.price = none ∨ jsNumber it.quantity = none) →
      jsTotal l = none := by
  have hempty : l.isEmpty = false := isEmpty_false_of_ne_nil hne
  constructor
  · by_cases huid : isValidObjectId uid = true <;>
      cases hc : castItems l <;> cases htot : jsTotal l <;> cases ok <;>
        simp [ordersHandler, hempty, orderCreate, hc, htot, huid]
  · intro it hit hnan
    exact foldl_totalStep_nan l (some 0) it hit hnan

theorem orders_items_unexamined_witness :
    (((ordersHandler true 0 "aaaaaaaaaaaaaaaaaaaaaaaa"
        ⟨some [⟨some "bbbbbbbbbbbbbbbbbbbbbbbb", .undef, .num 1⟩]⟩ emptyStore).1.status = 201) ∨
     ((ordersHandler true 0 "aaaaaaaaaaaaaaaaaaaaaaaa"
        ⟨some [⟨some "bbbbbbbbbbbbbbbbbbbbbbbb", .undef, .num 1⟩]⟩ emptyStore).1.status = 500)) ∧
    ∀ it ∈ [(⟨some "bbbbbbbbbbbbbbbbbbbbbbbb", .undef, .num 1⟩ : ReqItem)],
      (jsNumber it.price = none ∨ jsNumber it.quantity = none) →
        jsTotal [(⟨some "bbbbbbbbbbbbbbbbbbbbbbbb", .undef, .num 1⟩ : ReqItem)] = none :=
  orders_items_unexamined true 0 "aaaaaaaaaaaaaaaaaaaaaaaa" emptyStore
    [⟨some "bbbbbbbbbbbbbbbbbbbbbbbb", .undef, .num 1⟩] (by decide)

end EcoUser
